import Mathlib

/-!
Shallow embedding of the kjwlabs voice-chat client core:
the Zustand conversation store (`frontend/src/stores/conversationStore.ts`),
the conversation hook (`useConversation.ts`), and the WebSocket transport
service (the two revisions of `websocketService.ts`).

Store actions and message handlers are embedded as pure functions on a
`Store` record; Zustand's `set({...})` partial update becomes a record
update.  JavaScript's `a || b` on strings is embedded as `jsOr`.
-/

namespace VoiceChat

/-- Lifecycle states, from the `ConversationState` enum in
`types/conversation.ts`. -/
inductive ConversationState where
  | idle
  | listening
  | thinking
  | speaking
  | error
  | connecting
  | disconnected
deriving DecidableEq, Repr

/-- `ErrorMessageData` from `types/conversation.ts`. -/
structure ErrorMessageData where
  code : String
  message : String
  retryable : Bool
deriving DecidableEq, Repr

/-- `ConversationTurn` from `types/conversation.ts` (the optional
`toolCalls`/`audioUrl` extras are never set by the store handlers). -/
structure ConversationTurn where
  id : String
  userInput : String
  aiResponse : String
  timestamp : Nat
  duration : Nat
deriving DecidableEq, Repr

/-- The conversation store state (`ConversationStore` data fields in
`conversationStore.ts`).  `metrics`, `audioChunks` and `currentAudioUrl`
carry opaque payloads; they are kept so frame properties are meaningful. -/
structure Store where
  state : ConversationState
  isConnected : Bool
  isRecording : Bool
  currentText : String
  finalText : String
  aiResponse : String
  immediateResponse : String
  finalResponse : String
  hasFinalResponse : Bool
  patienceMessage : String
  error : Option ErrorMessageData
  conversationHistory : List ConversationTurn
  metrics : Option String
  audioChunks : List String
  isPlaying : Bool
  currentAudioUrl : Option String
deriving DecidableEq, Repr

/-- The `initialState` object of `conversationStore.ts`. -/
def initialState : Store where
  state := .idle
  isConnected := false
  isRecording := false
  currentText := ""
  finalText := ""
  aiResponse := ""
  immediateResponse := ""
  finalResponse := ""
  hasFinalResponse := false
  patienceMessage := ""
  error := none
  conversationHistory := []
  metrics := none
  audioChunks := []
  isPlaying := false
  currentAudioUrl := none

/-- JavaScript `a || b` on strings: `a` when non-empty, else `b`. -/
def jsOr (a b : String) : String :=
  if a = "" then b else a

/-- `setState` action. -/
def setState (newState : ConversationState) (s : Store) : Store :=
  { s with state := newState }

/-- `setConnected` action: on disconnect, force `DISCONNECTED` state and
clear recording/playing flags and the dual-path fields; on connect, go
idle and clear the error. -/
def setConnected (connected : Bool) (s : Store) : Store :=
  let s1 := { s with isConnected := connected }
  if connected = false then
    { s1 with
      state := .disconnected
      isRecording := false
      isPlaying := false
      error := none
      immediateResponse := ""
      finalResponse := ""
      hasFinalResponse := false
      patienceMessage := "" }
  else
    { s1 with state := .idle, error := none }

/-- `setRecording` action. -/
def setRecording (recording : Bool) (s : Store) : Store :=
  let s1 := { s with isRecording := recording }
  if recording then
    { s1 with state := .listening, currentText := "", error := none }
  else
    s1

/-- `setCurrentText` action. -/
def setCurrentText (text : String) (s : Store) : Store :=
  { s with currentText := text }

/-- `setFinalText` action. -/
def setFinalText (text : String) (s : Store) : Store :=
  { s with finalText := text, currentText := text }

/-- `setAiResponse` action. -/
def setAiResponse (response : String) (s : Store) : Store :=
  { s with aiResponse := response }

/-- `setImmediateResponse` action. -/
def setImmediateResponse (response : String) (s : Store) : Store :=
  { s with immediateResponse := response }

/-- `setFinalResponse` action: also raises `hasFinalResponse`. -/
def setFinalResponse (response : String) (s : Store) : Store :=
  { s with finalResponse := response, hasFinalResponse := true }

/-- `setHasFinalResponse` action. -/
def setHasFinalResponse (hasFinal : Bool) (s : Store) : Store :=
  { s with hasFinalResponse := hasFinal }

/-- `setPatienceMessage` action. -/
def setPatienceMessage (message : String) (s : Store) : Store :=
  { s with patienceMessage := message }

/-- `clearDualPathResponses` action. -/
def clearDualPathResponses (s : Store) : Store :=
  { s with
    immediateResponse := ""
    finalResponse := ""
    hasFinalResponse := false
    patienceMessage := "" }

/-- `setError` action. -/
def setError (e : Option ErrorMessageData) (s : Store) : Store :=
  match e with
  | some err =>
    { s with
      error := some err
      state := .error
      isRecording := false
      isPlaying := false }
  | none => { s with error := none }

/-- `setPlaying` action: playing forces `SPEAKING`; stopping returns to
`IDLE` only from `SPEAKING`. -/
def setPlaying (playing : Bool) (s : Store) : Store :=
  let s1 := { s with isPlaying := playing }
  if playing then
    { s1 with state := .speaking }
  else if s1.state = .speaking then
    { s1 with state := .idle }
  else
    s1

/-- `addConversationTurn` action: appends to the history. -/
def addConversationTurn (turn : ConversationTurn) (s : Store) : Store :=
  { s with conversationHistory := s.conversationHistory ++ [turn] }

/-- `clearConversation` action. -/
def clearConversation (s : Store) : Store :=
  { s with conversationHistory := [] }

/-- `handleConnectionEstablished` message handler. -/
def handleConnectionEstablished (s : Store) : Store :=
  { s with isConnected := true, state := .idle, error := none }

/-- `handleSTTStart` message handler: enters `LISTENING` and clears the
interim text only. -/
def handleSTTStart (s : Store) : Store :=
  { s with state := .listening, currentText := "" }

/-- `stt_result` payload: `{ text, type: "partial" | "final" }`. -/
structure STTResultData where
  text : String
  type : String
deriving DecidableEq, Repr

/-- `handleSTTResult` message handler. -/
def handleSTTResult (data : STTResultData) (s : Store) : Store :=
  if data.type = "final" then
    { s with
      finalText := data.text
      currentText := data.text
      state := .thinking
      isRecording := false }
  else if data.type = "partial" then
    { s with currentText := data.text }
  else
    s

/-- `handleLLMStart` message handler: enters `THINKING` and clears the
previous turn's dual-path response fields. -/
def handleLLMStart (s : Store) : Store :=
  { s with
    state := .thinking
    immediateResponse := ""
    finalResponse := ""
    hasFinalResponse := false
    patienceMessage := "" }

/-- `handleLLMResponse` message handler (single-path). -/
def handleLLMResponse (text : String) (s : Store) : Store :=
  { s with aiResponse := text, state := .thinking }

/-- `handleLLMImmediateResponse` message handler. -/
def handleLLMImmediateResponse (text : String) (s : Store) : Store :=
  { s with immediateResponse := text, state := .thinking }

/-- `handleLLMFinalResponse` message handler. -/
def handleLLMFinalResponse (text : String) (s : Store) : Store :=
  { s with
    finalResponse := text
    hasFinalResponse := true
    state := .thinking }

/-- `handleLLMPatienceUpdate` message handler. -/
def handleLLMPatienceUpdate (message : String) (s : Store) : Store :=
  { s with patienceMessage := message }

/-- `handleTTSStart` message handler. -/
def handleTTSStart (s : Store) : Store :=
  { s with state := .speaking }

/-- `handleTTSResult` message handler: records a turn whose response text
is `aiResponse || finalResponse || immediateResponse` (JS string or).
`now` stands for `Date.now()`. -/
def handleTTSResult (now : Nat) (s : Store) : Store :=
  let turn : ConversationTurn :=
    { id := toString now
      userInput := s.finalText
      aiResponse := jsOr s.aiResponse (jsOr s.finalResponse s.immediateResponse)
      timestamp := now
      duration := 0 }
  addConversationTurn turn s

/-- `handleTTSImmediateStart` message handler. -/
def handleTTSImmediateStart (s : Store) : Store :=
  { s with state := .speaking }

/-- `handleTTSImmediateResult` message handler: logs only, keeps the
speaking state, records nothing. -/
def handleTTSImmediateResult (s : Store) : Store :=
  s

/-- `handleTTSFinalStart` message handler. -/
def handleTTSFinalStart (s : Store) : Store :=
  { s with state := .speaking }

/-- `handleTTSFinalResult` message handler: records a turn whose response
text is `finalResponse || immediateResponse`.  `now` stands for
`Date.now()`. -/
def handleTTSFinalResult (now : Nat) (s : Store) : Store :=
  let turn : ConversationTurn :=
    { id := toString now
      userInput := s.finalText
      aiResponse := jsOr s.finalResponse s.immediateResponse
      timestamp := now
      duration := 0 }
  addConversationTurn turn s

/-- The dual-path UI-facing/turn-recording response selector used by
`handleTTSFinalResult`: `finalResponse || immediateResponse`. -/
def dualPathResponder (s : Store) : String :=
  jsOr s.finalResponse s.immediateResponse

/-- `handleTTSUnavailable` message handler. -/
def handleTTSUnavailable (message : String) (s : Store) : Store :=
  { s with
    state := .idle
    error := some { code := "TTS_UNAVAILABLE", message := message, retryable := false } }

/-- `handleError` message handler. -/
def handleError (e : ErrorMessageData) (s : Store) : Store :=
  { s with
    error := some e
    state := .error
    isRecording := false
    isPlaying := false }

/-- `triggerInterrupt` store action: back to `IDLE`, playback flag off,
dual-path fields cleared. -/
def triggerInterrupt (s : Store) : Store :=
  { s with
    state := .idle
    isPlaying := false
    immediateResponse := ""
    finalResponse := ""
    hasFinalResponse := false
    patienceMessage := "" }

/-- The hook-level `interrupt` of `useConversation.ts`: stop playback
(`setPlaying false`), run `triggerInterrupt`, then restart recording
(`setRecording true`) unless `audioService.startRecording()` threw
(modelled by `restartOk`).  The server notification `sendInterrupt()` is
a pure side channel with no store effect. -/
def hookInterrupt (restartOk : Bool) (s : Store) : Store :=
  let s1 := setPlaying false s
  let s2 := triggerInterrupt s1
  if restartOk then setRecording true s2 else s2

/-- The hook-level `canInterrupt` predicate of `useConversation.ts`. -/
def canInterrupt (s : Store) : Bool :=
  s.isPlaying && s.state = .speaking

/-! ## WebSocket transport service

Two revisions of `websocketService.ts` exist in the repository.  Both
share the fields `reconnectAttempts`, `maxReconnectAttempts = 5`,
`reconnectDelay = 1000`, `isManualClose`, and share the `onclose` guard
`!isManualClose && reconnectAttempts < maxReconnectAttempts`; they differ
in the delay computed by `attemptReconnect`:

* the revision with client-id addressing (the one the enhanced hook's
  `startConversation`/`endConversation` calls exist on) schedules attempt
  `n` after `reconnectDelay * n` and rechecks `isManualClose` first;
* the other revision schedules attempt `n` after
  `reconnectDelay * 2 ^ (n - 1)`.
-/

/-- `MessageType` enum from `types/conversation.ts`. -/
inductive MessageType where
  | audioChunk
  | interruptSignal
  | startConversationMsg
  | endConversationMsg
  | heartbeat
  | connectionEstablished
  | sttStart
  | sttResult
  | llmStart
  | llmResponse
  | llmImmediateResponse
  | llmFinalResponse
  | llmPatienceUpdate
  | ttsStart
  | ttsResult
  | ttsImmediateStart
  | ttsImmediateResult
  | ttsFinalStart
  | ttsFinalResult
  | ttsUnavailable
  | heartbeatAck
  | errorMsg
  | audioStart
  | audioEnd
  | sttPartialMsg
  | sttFinalMsg
  | llmThinking
  | ttsChunk
  | ttsEnd
  | stateChange
deriving DecidableEq, Repr

/-- Wire envelope `WebSocketMessage` from `types/conversation.ts`; the
`data` payload is kept opaque. -/
structure WSMessage where
  type : MessageType
  data : String
  timestamp : Nat
  id : Option String
deriving DecidableEq, Repr

/-- A registered message handler acting on an abstract world `σ`.  Its
`run` returns the world after the handler body ran together with a flag
that is `true` when the handler threw; the `try`/`catch` around each
handler in `handleMessage` only logs, so dispatch always continues. -/
structure Handler (σ : Type) where
  id : Nat
  run : WSMessage → σ → σ × Bool

/-- The `handlers.forEach(handler => { try { handler(message) } catch ... })`
loop of `WebSocketService.handleMessage`: every handler in list order is
run on the evolving world; the second component records the ids of the
handlers that were invoked, in order. -/
def dispatchHandlers {σ : Type} : List (Handler σ) → WSMessage → σ → σ × List Nat
  | [], _, s => (s, [])
  | h :: hs, m, s =>
    let s1 := (h.run m s).1
    let rest := dispatchHandlers hs m s1
    (rest.1, h.id :: rest.2)

/-- `onMessage` registration: pushes the handler at the end of the list
for its type. -/
def onMessageRegister {σ : Type} (hs : List (Handler σ)) (h : Handler σ) :
    List (Handler σ) :=
  hs ++ [h]

/-- `WebSocketService.handleMessage`: `JSON.parse` of the raw frame is
modelled by an `Option WSMessage` (`none` = parse failure).  On failure
the enclosing `catch` logs and drops the frame: no handler runs and the
world is unchanged. -/
def handleMessage {σ : Type} (registry : MessageType → List (Handler σ))
    (raw : Option WSMessage) (s : σ) : σ × List Nat :=
  match raw with
  | none => (s, [])
  | some m => dispatchHandlers (registry m.type) m s

/-- The receive loop: frames are processed in arrival order, each through
`handleMessage`; invocation logs are concatenated. -/
def processMessages {σ : Type} (registry : MessageType → List (Handler σ)) :
    List (Option WSMessage) → σ → σ × List Nat
  | [], s => (s, [])
  | raw :: rest, s =>
    let r1 := handleMessage registry raw s
    let r2 := processMessages registry rest r1.1
    (r2.1, r1.2 ++ r2.2)

/-- `maxReconnectAttempts` field (both revisions). -/
def maxReconnectAttempts : Nat := 5

/-- `reconnectDelay` field, the 1-second base (both revisions). -/
def reconnectDelay : Nat := 1000

/-- The reconnect-relevant part of the service state. -/
structure WSState where
  reconnectAttempts : Nat
  isManualClose : Bool
deriving DecidableEq, Repr

/-- `disconnect()`: marks the closure as intentional. -/
def wsDisconnect (s : WSState) : WSState :=
  { s with isManualClose := true }

/-- `ws.onopen`: resets the attempt counter. -/
def wsOnOpen (s : WSState) : WSState :=
  { s with reconnectAttempts := 0 }

/-- The `onclose` guard shared by both revisions:
`!isManualClose && reconnectAttempts < maxReconnectAttempts`. -/
def shouldReconnect (s : WSState) : Bool :=
  !s.isManualClose && s.reconnectAttempts < maxReconnectAttempts

/-- `attemptReconnect` of the client-id revision: early-returns when
`isManualClose`, else increments the counter and schedules `connect()`
after `reconnectDelay * reconnectAttempts` — a linear delay. -/
def attemptReconnectLinear (s : WSState) : WSState × Option Nat :=
  if s.isManualClose then (s, none)
  else
    let a := s.reconnectAttempts + 1
    ({ s with reconnectAttempts := a }, some (reconnectDelay * a))

/-- `attemptReconnect` of the other revision: increments the counter and
schedules `connect()` after `reconnectDelay * 2 ^ (reconnectAttempts - 1)`
— an exponential delay. -/
def attemptReconnectExp (s : WSState) : WSState × Nat :=
  let a := s.reconnectAttempts + 1
  ({ s with reconnectAttempts := a }, reconnectDelay * 2 ^ (a - 1))

/-- One unintentional `onclose` event: when the guard passes, an attempt
is made (counter incremented); the flag reports whether an attempt
occurred. -/
def onCloseStep (s : WSState) : WSState × Bool :=
  if shouldReconnect s then
    ({ s with reconnectAttempts := s.reconnectAttempts + 1 }, true)
  else
    (s, false)

/-- Number of reconnect attempts made over `n` consecutive close events
with every reconnect attempt failing (so `onopen` never fires). -/
def countAttempts : Nat → WSState → Nat
  | 0, _ => 0
  | n + 1, s =>
    let r := onCloseStep s
    (if r.2 then 1 else 0) + countAttempts n r.1

/-- The delays scheduled by the client-id (linear) revision over `n`
consecutive close events with every reconnect attempt failing. -/
def failedCloseDelaysLinear : Nat → WSState → List Nat
  | 0, _ => []
  | n + 1, s =>
    if shouldReconnect s then
      match attemptReconnectLinear s with
      | (s1, some d) => d :: failedCloseDelaysLinear n s1
      | (s1, none) => failedCloseDelaysLinear n s1
    else
      failedCloseDelaysLinear n s

/-- The delays scheduled by the exponential revision over `n` consecutive
close events with every reconnect attempt failing. -/
def failedCloseDelaysExp : Nat → WSState → List Nat
  | 0, _ => []
  | n + 1, s =>
    if shouldReconnect s then
      let r := attemptReconnectExp s
      r.2 :: failedCloseDelaysExp n r.1
    else
      failedCloseDelaysExp n s

/-! ## Shared sample states and helper lemmas -/

/-- A store mid-turn: `THINKING`, with both dual-path responses already
recorded for the current turn and an empty history. -/
def sampleThinkingStore : Store :=
  { initialState with
    state := .thinking
    finalText := "hi"
    immediateResponse := "quick"
    finalResponse := "full"
    hasFinalResponse := true
    patienceMessage := "wait" }

/-- With the closure marked intentional, a close event never makes a
reconnect attempt, however many closes arrive. -/
theorem countAttempts_manualClose (n a : Nat) :
    countAttempts n ⟨a, true⟩ = 0 := by
  induction n with
  | zero => rfl
  | succ n ih => simpa [countAttempts, onCloseStep, shouldReconnect] using ih

/-- Once the attempt counter has reached the maximum, later close events
make no further attempts. -/
theorem countAttempts_exhausted (n a : Nat) (h : ¬ a < maxReconnectAttempts) :
    countAttempts n ⟨a, false⟩ = 0 := by
  induction n with
  | zero => rfl
  | succ n ih => simpa [countAttempts, onCloseStep, shouldReconnect, h] using ih

/-- The number of reconnect attempts over any run of failing closes is
bounded by the remaining attempt budget. -/
theorem countAttempts_le (n : Nat) :
    ∀ k, countAttempts n ⟨k, false⟩ ≤ maxReconnectAttempts - k := by
  induction n with
  | zero => intro k; simp [countAttempts]
  | succ n ih =>
    intro k
    by_cases h : k < maxReconnectAttempts
    · have step : countAttempts (n + 1) ⟨k, false⟩ = 1 + countAttempts n ⟨k + 1, false⟩ := by
        simp [countAttempts, onCloseStep, shouldReconnect, h]
      have := ih (k + 1)
      omega
    · have := countAttempts_exhausted (n + 1) k h
      omega

/-- The dispatch log lists every registered handler id, in list order,
whatever each handler's world effect or thrown flag is. -/
theorem dispatchHandlers_log {σ : Type} (hs : List (Handler σ)) (m : WSMessage) (s : σ) :
    (dispatchHandlers hs m s).2 = hs.map Handler.id := by
  induction hs generalizing s with
  | nil => rfl
  | cons h hs ih => simp [dispatchHandlers, ih]

/-! ## Claim theorems -/

/-- Claim C1, counterexample: the claim says reconnect attempt `n` is
scheduled after `baseDelay * 2 ^ (n - 1)`, so attempt 3 after 4000 ms; the
client-id revision of `attemptReconnect` schedules attempt 3 (counter at 2
before the close) after `reconnectDelay * 3 = 3000` ms instead. -/
theorem claim_C1_counterexample :
    (attemptReconnectLinear ⟨2, false⟩).2 = some 3000
    ∧ reconnectDelay * 2 ^ (3 - 1) = 4000
    ∧ (3000 : Nat) ≠ 4000 := by
  decide

/-- Claim C1, amended: only the exponential revision of
`websocketService.ts` schedules attempt `n` after
`reconnectDelay * 2 ^ (n - 1)`, giving delays 1s, 2s, 4s, 8s, 16s over six
consecutive unintentional drops; the client-id revision schedules attempt
`n` after `reconnectDelay * n`, giving linear delays 1s, 2s, 3s, 4s, 5s. -/
theorem claim_C1_backoff_per_revision :
    failedCloseDelaysExp 6 ⟨0, false⟩ = [1000, 2000, 4000, 8000, 16000]
    ∧ failedCloseDelaysLinear 6 ⟨0, false⟩ = [1000, 2000, 3000, 4000, 5000]
    ∧ (∀ n : Nat, (attemptReconnectExp ⟨n, false⟩).2 = reconnectDelay * 2 ^ n)
    ∧ (∀ n : Nat, (attemptReconnectLinear ⟨n, false⟩).2 = some (reconnectDelay * (n + 1))) := by
  refine ⟨by decide, by decide, fun n => ?_, fun n => ?_⟩
  · simp [attemptReconnectExp]
  · simp [attemptReconnectLinear]

/-- Claim C2, counterexample: with both dual-path responses recorded,
running `handleTTSResult` (immediate/legacy path) and then
`handleTTSFinalResult` leaves two turns in the history — the turn
recorded by the first handler (id "1") is retained alongside the second,
not replaced, so the history does not gain exactly one turn. -/
theorem claim_C2_counterexample :
    ¬ (handleTTSFinalResult 2 (handleTTSResult 1 sampleThinkingStore)).conversationHistory.length = 1
    ∧ ((handleTTSFinalResult 2 (handleTTSResult 1 sampleThinkingStore)).conversationHistory.map
        ConversationTurn.id) = ["1", "2"] := by
  constructor
  · decide
  · rfl

/-- Claim C2, amended: `handleTTSResult` and `handleTTSFinalResult` each
append a turn to the history, so when both run for one user turn the
history gains two turns and the earlier one is retained unchanged;
`handleTTSImmediateResult` records nothing, so only in the pure dual-path
flow does the history gain exactly one turn. -/
theorem claim_C2_turns_appended_not_reconciled (s : Store) (n1 n2 : Nat) :
    (handleTTSFinalResult n2 (handleTTSResult n1 s)).conversationHistory
      = s.conversationHistory
        ++ [{ id := toString n1
              userInput := s.finalText
              aiResponse := jsOr s.aiResponse (jsOr s.finalResponse s.immediateResponse)
              timestamp := n1
              duration := 0 },
            { id := toString n2
              userInput := s.finalText
              aiResponse := jsOr s.finalResponse s.immediateResponse
              timestamp := n2
              duration := 0 }]
    ∧ handleTTSImmediateResult s = s := by
  constructor
  · simp [handleTTSFinalResult, handleTTSResult, addConversationTurn]
  · rfl

/-- Claim C3, counterexample: `handleSTTStart` leaves all four dual-path
response fields untouched — starting from a store carrying the previous
turn's responses, after `stt_start` they are still present, not reset to
empty. -/
theorem claim_C3_counterexample :
    (handleSTTStart sampleThinkingStore).hasFinalResponse = true
    ∧ (handleSTTStart sampleThinkingStore).immediateResponse = "quick"
    ∧ (handleSTTStart sampleThinkingStore).finalResponse = "full"
    ∧ (handleSTTStart sampleThinkingStore).patienceMessage = "wait" := by
  decide

/-- Claim C3, amended: the dual-path response fields are reset by
`handleLLMStart` (`llm_start`), not by `handleSTTStart` (`stt_start`),
which preserves them all, so the previous turn's response data survives
from the new utterance's `stt_start` until its `llm_start` arrives. -/
theorem claim_C3_clear_on_llm_start (s : Store) :
    (handleSTTStart s).immediateResponse = s.immediateResponse
    ∧ (handleSTTStart s).finalResponse = s.finalResponse
    ∧ (handleSTTStart s).hasFinalResponse = s.hasFinalResponse
    ∧ (handleSTTStart s).patienceMessage = s.patienceMessage
    ∧ (handleLLMStart s).immediateResponse = ""
    ∧ (handleLLMStart s).finalResponse = ""
    ∧ (handleLLMStart s).hasFinalResponse = false
    ∧ (handleLLMStart s).patienceMessage = "" :=
  ⟨rfl, rfl, rfl, rfl, rfl, rfl, rfl, rfl⟩

/-- Claim C4, counterexample: the hook-level `interrupt` is not a no-op
outside `SPEAKING`: invoked from a `THINKING` store it still transitions
to `LISTENING` and clears the dual-path fields. -/
theorem claim_C4_counterexample :
    sampleThinkingStore.state ≠ ConversationState.speaking
    ∧ hookInterrupt true sampleThinkingStore ≠ sampleThinkingStore
    ∧ (hookInterrupt true sampleThinkingStore).state = ConversationState.listening := by
  refine ⟨by decide, by decide, rfl⟩

/-- Claim C4, amended: from every lifecycle state — `SPEAKING` included —
`interrupt` stops playback, clears the dual-path response fields, and
(when the recording restart does not throw) restarts capture and lands in
`LISTENING`; when the restart throws it lands in `IDLE` with recording
unchanged.  The function is unguarded: only the UI-level `canInterrupt`
flag restricts it to `SPEAKING`, so it is not a no-op elsewhere. -/
theorem claim_C4_interrupt_effects (s : Store) (restartOk : Bool) :
    ((hookInterrupt restartOk s).state
      = if restartOk then ConversationState.listening else ConversationState.idle)
    ∧ (hookInterrupt restartOk s).isPlaying = false
    ∧ ((hookInterrupt restartOk s).isRecording = if restartOk then true else s.isRecording)
    ∧ (hookInterrupt restartOk s).immediateResponse = ""
    ∧ (hookInterrupt restartOk s).finalResponse = ""
    ∧ (hookInterrupt restartOk s).hasFinalResponse = false
    ∧ (hookInterrupt restartOk s).patienceMessage = "" := by
  cases restartOk with
  | true => exact ⟨rfl, rfl, rfl, rfl, rfl, rfl, rfl⟩
  | false =>
    refine ⟨rfl, rfl, ?_, rfl, rfl, rfl, rfl⟩
    simp only [hookInterrupt, triggerInterrupt, setPlaying, Bool.false_eq_true, if_false]
    split <;> rfl

/-- Claim C5: after `handleLLMImmediateResponse a` then
`handleLLMFinalResponse b` (with `b` non-empty), the dual-path responder
(`finalResponse || immediateResponse`, the selector used for the UI-facing
turn text) yields `b` and `hasFinalResponse` is raised; within a fresh
turn (`handleLLMStart`) with only an immediate response `a`, it yields
`a`. -/
theorem claim_C5_final_supersedes_immediate (s : Store) (a b : String) (hb : b ≠ "") :
    dualPathResponder (handleLLMFinalResponse b (handleLLMImmediateResponse a s)) = b
    ∧ (handleLLMFinalResponse b (handleLLMImmediateResponse a s)).hasFinalResponse = true
    ∧ dualPathResponder (handleLLMImmediateResponse a (handleLLMStart s)) = a := by
  refine ⟨?_, rfl, ?_⟩
  · simp [dualPathResponder, jsOr, handleLLMFinalResponse, handleLLMImmediateResponse, hb]
  · simp [dualPathResponder, jsOr, handleLLMImmediateResponse, handleLLMStart]

/-- Claim C5, witness: the responder read on concrete inputs `"A"`/`"B"`
from the initial store. -/
theorem claim_C5_witness :
    dualPathResponder (handleLLMFinalResponse "B" (handleLLMImmediateResponse "A" initialState)) = "B"
    ∧ (handleLLMFinalResponse "B" (handleLLMImmediateResponse "A" initialState)).hasFinalResponse = true
    ∧ dualPathResponder (handleLLMImmediateResponse "A" (handleLLMStart initialState)) = "A" :=
  claim_C5_final_supersedes_immediate initialState "A" "B" (by decide)

/-- Claim C6: for every store state, `setConnected false` (the
connection-lost path) forces `lifecycleState` to `DISCONNECTED` and clears
the `isRecording` and `isPlaying` flags. -/
theorem claim_C6_connection_loss_dominance (s : Store) :
    (setConnected false s).state = ConversationState.disconnected
    ∧ (setConnected false s).isRecording = false
    ∧ (setConnected false s).isPlaying = false :=
  ⟨rfl, rfl, rfl⟩

/-- Claim C7: from a fresh unintentional disconnect at most
`maxReconnectAttempts = 5` reconnect attempts ever occur over any run of
failing closes; once the budget is exhausted no close event makes another
attempt (the session settles into disconnected until an explicit
`connect()` resets the counter via `onopen`); and after `disconnect()`
marked the closure intentional, no reconnect attempt occurs at all. -/
theorem claim_C7_reconnect_bound :
    (∀ n : Nat, countAttempts n ⟨0, false⟩ ≤ maxReconnectAttempts)
    ∧ (∀ n : Nat, countAttempts n ⟨maxReconnectAttempts, false⟩ = 0)
    ∧ (∀ (n : Nat) (s : WSState), countAttempts n (wsDisconnect s) = 0) := by
  refine ⟨fun n => ?_, fun n => ?_, fun n s => ?_⟩
  · have := countAttempts_le n 0
    omega
  · exact countAttempts_exhausted n maxReconnectAttempts (by omega)
  · exact countAttempts_manualClose n s.reconnectAttempts

/-- Claim C8: `handleMessage`'s dispatch loop invokes every handler
registered for the message's type, in registration order (`onMessage`
appends at the end), and this holds whatever each handler's thrown flag
is — a throwing handler is caught and does not prevent later-registered
handlers from running. -/
theorem claim_C8_handlers_isolated_in_order {σ : Type} (hs : List (Handler σ))
    (h : Handler σ) (m : WSMessage) (s : σ) :
    (dispatchHandlers hs m s).2 = hs.map Handler.id
    ∧ (dispatchHandlers (onMessageRegister hs h) m s).2 = hs.map Handler.id ++ [h.id] := by
  constructor
  · exact dispatchHandlers_log hs m s
  · rw [onMessageRegister, dispatchHandlers_log, List.map_append]
    rfl

/-- Claim C9: a raw frame that fails to parse is dropped by
`handleMessage` — the world is unchanged and no handler is invoked (the
function is total, so nothing escapes the receive loop) — and the receive
loop processes the remaining frames exactly as if the malformed frame had
never arrived. -/
theorem claim_C9_malformed_frame_dropped {σ : Type}
    (registry : MessageType → List (Handler σ)) (rest : List (Option WSMessage)) (s : σ) :
    handleMessage registry none s = (s, [])
    ∧ processMessages registry (none :: rest) s = processMessages registry rest s := by
  constructor
  · rfl
  · simp [processMessages, handleMessage]

/-- Claim C10: `setPlaying` updates exactly `isPlaying` and the lifecycle
state: `setPlaying true` forces `SPEAKING` from any state, `setPlaying
false` moves `SPEAKING` to `IDLE` and leaves every other state unchanged;
all other store fields are untouched. -/
theorem claim_C10_setPlaying_frame (s : Store) (p : Bool) :
    setPlaying p s
      = { s with
          isPlaying := p
          state := if p then ConversationState.speaking
                   else if s.state = ConversationState.speaking then ConversationState.idle
                   else s.state } := by
  cases p with
  | true => rfl
  | false =>
    simp only [setPlaying, Bool.false_eq_true, if_false]
    split <;> rfl

end VoiceChat
